import Mathlib

/-!
Verification of the hydra-emu core ABI headers and loader.

The repository ships three revisions of the C header (`core.h` — the oldest,
called `RevA` below; an unnamed intermediate revision, `RevB`; and the latest
unnamed revision, `RevC`), a C++ interface header (`core.hxx`), and the
function-loading translation unit defining `hcInternalLoadFunctions` and the
nine global host-function bindings.

Every definition below is a direct transcription of the corresponding C/C++
declaration: enumerator values follow C's rules (an enumerator without an
explicit value is the previous value plus one; the first defaults to zero),
struct layouts are recorded as ordered field-name/field-type lists, and
`hcInternalLoadFunctions` is embedded as a state-passing function over the
table of the nine global bindings, with pointers modelled as `Nat` (zero is
`NULL`).
-/

/-! ## Revision A: `src/include/hydra/core.h` (oldest header) -/

namespace RevA

def HC_SUCCESS : Int := 0
def HC_ERROR : Int := -1

def hcResultFailureValues : List Int := [HC_ERROR]

def HC_DRIVE_MODE_NULL : Nat := 0
def HC_DRIVE_MODE_SELF_DRIVEN : Nat := 1
def HC_DRIVE_MODE_FRONTEND_DRIVEN : Nat := 2

/-- The non-null enumerators of `HcDriveMode` in declaration order. -/
def driveModeNonNullValues : List Nat :=
  [HC_DRIVE_MODE_SELF_DRIVEN, HC_DRIVE_MODE_FRONTEND_DRIVEN]

def HC_OPENGL_NOT_SUPPORTED : Nat := 0
def HC_OPENGL_VERSION_1_0 : Nat := 1
def HC_OPENGL_VERSION_1_1 : Nat := 2
def HC_OPENGL_VERSION_1_2 : Nat := 3
def HC_OPENGL_VERSION_1_3 : Nat := 4
def HC_OPENGL_VERSION_1_4 : Nat := 5
def HC_OPENGL_VERSION_1_5 : Nat := 6
def HC_OPENGL_VERSION_2_0 : Nat := 7
def HC_OPENGL_VERSION_2_1 : Nat := 8
def HC_OPENGL_VERSION_3_0 : Nat := 9
def HC_OPENGL_VERSION_3_1 : Nat := 10
def HC_OPENGL_VERSION_3_2 : Nat := 11
def HC_OPENGL_VERSION_3_3 : Nat := 12
def HC_OPENGL_VERSION_4_0 : Nat := 13
def HC_OPENGL_VERSION_4_1 : Nat := 14
def HC_OPENGL_VERSION_4_2 : Nat := 15
def HC_OPENGL_VERSION_4_3 : Nat := 16
def HC_OPENGL_VERSION_4_4 : Nat := 17
def HC_OPENGL_VERSION_4_5 : Nat := 18
def HC_OPENGL_VERSION_4_6 : Nat := 19

def HC_OPENGL_ES_NOT_SUPPORTED : Nat := 0
def HC_OPENGL_ES_VERSION_1_0 : Nat := 1
def HC_OPENGL_ES_VERSION_1_1 : Nat := 2
def HC_OPENGL_ES_VERSION_2_0 : Nat := 3
def HC_OPENGL_ES_VERSION_3_0 : Nat := 4
def HC_OPENGL_ES_VERSION_3_1 : Nat := 5
def HC_OPENGL_ES_VERSION_3_2 : Nat := 6

def HC_WEBGL_NOT_SUPPORTED : Nat := 0
def HC_WEBGL_VERSION_1_0 : Nat := 1
def HC_WEBGL_VERSION_2_0 : Nat := 2

def HC_VULKAN_NOT_SUPPORTED : Nat := 0
def HC_VULKAN_VERSION_1_0 : Nat := 1
def HC_VULKAN_VERSION_1_1 : Nat := 2
def HC_VULKAN_VERSION_1_2 : Nat := 3
def HC_VULKAN_VERSION_1_3 : Nat := 4

def HC_METAL_NOT_SUPPORTED : Nat := 0

def HC_DIRECT3D_NOT_SUPPORTED : Nat := 0

/-- Each supported version enumerator of `HcOpenGlVersion` with the
(major, minor) version it names. -/
def openGlVersions : List (Nat × Nat × Nat) :=
  [(HC_OPENGL_VERSION_1_0, 1, 0), (HC_OPENGL_VERSION_1_1, 1, 1),
   (HC_OPENGL_VERSION_1_2, 1, 2), (HC_OPENGL_VERSION_1_3, 1, 3),
   (HC_OPENGL_VERSION_1_4, 1, 4), (HC_OPENGL_VERSION_1_5, 1, 5),
   (HC_OPENGL_VERSION_2_0, 2, 0), (HC_OPENGL_VERSION_2_1, 2, 1),
   (HC_OPENGL_VERSION_3_0, 3, 0), (HC_OPENGL_VERSION_3_1, 3, 1),
   (HC_OPENGL_VERSION_3_2, 3, 2), (HC_OPENGL_VERSION_3_3, 3, 3),
   (HC_OPENGL_VERSION_4_0, 4, 0), (HC_OPENGL_VERSION_4_1, 4, 1),
   (HC_OPENGL_VERSION_4_2, 4, 2), (HC_OPENGL_VERSION_4_3, 4, 3),
   (HC_OPENGL_VERSION_4_4, 4, 4), (HC_OPENGL_VERSION_4_5, 4, 5),
   (HC_OPENGL_VERSION_4_6, 4, 6)]

def openGlEsVersions : List (Nat × Nat × Nat) :=
  [(HC_OPENGL_ES_VERSION_1_0, 1, 0), (HC_OPENGL_ES_VERSION_1_1, 1, 1),
   (HC_OPENGL_ES_VERSION_2_0, 2, 0), (HC_OPENGL_ES_VERSION_3_0, 3, 0),
   (HC_OPENGL_ES_VERSION_3_1, 3, 1), (HC_OPENGL_ES_VERSION_3_2, 3, 2)]

def webGlVersions : List (Nat × Nat × Nat) :=
  [(HC_WEBGL_VERSION_1_0, 1, 0), (HC_WEBGL_VERSION_2_0, 2, 0)]

def vulkanVersions : List (Nat × Nat × Nat) :=
  [(HC_VULKAN_VERSION_1_0, 1, 0), (HC_VULKAN_VERSION_1_1, 1, 1),
   (HC_VULKAN_VERSION_1_2, 1, 2), (HC_VULKAN_VERSION_1_3, 1, 3)]

/-- Revision A declares no supported Metal version. -/
def metalVersions : List (Nat × Nat × Nat) := []

/-- Revision A declares no supported Direct3D version. -/
def direct3DVersions : List (Nat × Nat × Nat) := []

end RevA

/-! ## Revision B: `src/unnamed/part_000` (intermediate header) -/

namespace RevB

def HC_SUCCESS : Int := 0
def HC_ERROR_OTHER : Int := -1
def HC_ERROR_TOO_MANY_INSTANCES : Int := -2
def HC_ERROR_NO_SUCH_INSTANCE : Int := -3
def HC_ERROR_BAD_CONTENT : Int := -4

def hcResultFailureValues : List Int :=
  [HC_ERROR_OTHER, HC_ERROR_TOO_MANY_INSTANCES, HC_ERROR_NO_SUCH_INSTANCE,
   HC_ERROR_BAD_CONTENT]

def HC_DRIVE_MODE_SELF_DRIVEN : Nat := 1
def HC_DRIVE_MODE_SELF_DRIVEN_EXCEPT_AUDIO : Nat := 2
def HC_DRIVE_MODE_FRONTEND_DRIVEN : Nat := 3

/-- Revision B's `HcDriveMode` declares no null enumerator; all of its
enumerators are non-zero drive modes. -/
def driveModeNonNullValues : List Nat :=
  [HC_DRIVE_MODE_SELF_DRIVEN, HC_DRIVE_MODE_SELF_DRIVEN_EXCEPT_AUDIO,
   HC_DRIVE_MODE_FRONTEND_DRIVEN]

def HC_OPENGL_NOT_SUPPORTED : Nat := 0
def HC_OPENGL_VERSION_1_0 : Nat := 1
def HC_OPENGL_VERSION_1_1 : Nat := 2
def HC_OPENGL_VERSION_1_2 : Nat := 3
def HC_OPENGL_VERSION_1_3 : Nat := 4
def HC_OPENGL_VERSION_1_4 : Nat := 5
def HC_OPENGL_VERSION_1_5 : Nat := 6
def HC_OPENGL_VERSION_2_0 : Nat := 7
def HC_OPENGL_VERSION_2_1 : Nat := 8
def HC_OPENGL_VERSION_3_0 : Nat := 9
def HC_OPENGL_VERSION_3_1 : Nat := 10
def HC_OPENGL_VERSION_3_2 : Nat := 11
def HC_OPENGL_VERSION_3_3 : Nat := 12
def HC_OPENGL_VERSION_4_0 : Nat := 13
def HC_OPENGL_VERSION_4_1 : Nat := 14
def HC_OPENGL_VERSION_4_2 : Nat := 15
def HC_OPENGL_VERSION_4_3 : Nat := 16
def HC_OPENGL_VERSION_4_4 : Nat := 17
def HC_OPENGL_VERSION_4_5 : Nat := 18
def HC_OPENGL_VERSION_4_6 : Nat := 19

def HC_OPENGL_ES_NOT_SUPPORTED : Nat := 0
def HC_OPENGL_ES_VERSION_1_0 : Nat := 1
def HC_OPENGL_ES_VERSION_1_1 : Nat := 2
def HC_OPENGL_ES_VERSION_2_0 : Nat := 3
def HC_OPENGL_ES_VERSION_3_0 : Nat := 4
def HC_OPENGL_ES_VERSION_3_1 : Nat := 5
def HC_OPENGL_ES_VERSION_3_2 : Nat := 6

def HC_WEBGL_NOT_SUPPORTED : Nat := 0
def HC_WEBGL_VERSION_1_0 : Nat := 1
def HC_WEBGL_VERSION_2_0 : Nat := 2

def HC_VULKAN_NOT_SUPPORTED : Nat := 0
def HC_VULKAN_VERSION_1_0 : Nat := 1
def HC_VULKAN_VERSION_1_1 : Nat := 2
def HC_VULKAN_VERSION_1_2 : Nat := 3
def HC_VULKAN_VERSION_1_3 : Nat := 4

def HC_METAL_NOT_SUPPORTED : Nat := 0
def HC_METAL_VERSION_1_0 : Nat := 1
def HC_METAL_VERSION_2_0 : Nat := 1
def HC_METAL_VERSION_3_0 : Nat := 1

def HC_DIRECT3D_NOT_SUPPORTED : Nat := 0
def HC_DIRECT3D_VERSION_11_0 : Nat := 1
def HC_DIRECT3D_VERSION_12_0 : Nat := 2

def openGlVersions : List (Nat × Nat × Nat) :=
  [(HC_OPENGL_VERSION_1_0, 1, 0), (HC_OPENGL_VERSION_1_1, 1, 1),
   (HC_OPENGL_VERSION_1_2, 1, 2), (HC_OPENGL_VERSION_1_3, 1, 3),
   (HC_OPENGL_VERSION_1_4, 1, 4), (HC_OPENGL_VERSION_1_5, 1, 5),
   (HC_OPENGL_VERSION_2_0, 2, 0), (HC_OPENGL_VERSION_2_1, 2, 1),
   (HC_OPENGL_VERSION_3_0, 3, 0), (HC_OPENGL_VERSION_3_1, 3, 1),
   (HC_OPENGL_VERSION_3_2, 3, 2), (HC_OPENGL_VERSION_3_3, 3, 3),
   (HC_OPENGL_VERSION_4_0, 4, 0), (HC_OPENGL_VERSION_4_1, 4, 1),
   (HC_OPENGL_VERSION_4_2, 4, 2), (HC_OPENGL_VERSION_4_3, 4, 3),
   (HC_OPENGL_VERSION_4_4, 4, 4), (HC_OPENGL_VERSION_4_5, 4, 5),
   (HC_OPENGL_VERSION_4_6, 4, 6)]

def openGlEsVersions : List (Nat × Nat × Nat) :=
  [(HC_OPENGL_ES_VERSION_1_0, 1, 0), (HC_OPENGL_ES_VERSION_1_1, 1, 1),
   (HC_OPENGL_ES_VERSION_2_0, 2, 0), (HC_OPENGL_ES_VERSION_3_0, 3, 0),
   (HC_OPENGL_ES_VERSION_3_1, 3, 1), (HC_OPENGL_ES_VERSION_3_2, 3, 2)]

def webGlVersions : List (Nat × Nat × Nat) :=
  [(HC_WEBGL_VERSION_1_0, 1, 0), (HC_WEBGL_VERSION_2_0, 2, 0)]

def vulkanVersions : List (Nat × Nat × Nat) :=
  [(HC_VULKAN_VERSION_1_0, 1, 0), (HC_VULKAN_VERSION_1_1, 1, 1),
   (HC_VULKAN_VERSION_1_2, 1, 2), (HC_VULKAN_VERSION_1_3, 1, 3)]

def metalVersions : List (Nat × Nat × Nat) :=
  [(HC_METAL_VERSION_1_0, 1, 0), (HC_METAL_VERSION_2_0, 2, 0),
   (HC_METAL_VERSION_3_0, 3, 0)]

def direct3DVersions : List (Nat × Nat × Nat) :=
  [(HC_DIRECT3D_VERSION_11_0, 11, 0), (HC_DIRECT3D_VERSION_12_0, 12, 0)]

end RevB

/-! ## Revision C: `src/unnamed/part_001` (latest header) -/

namespace RevC

def HC_SUCCESS : Int := 0
def HC_ERROR_CORE : Int := -1001
def HC_ERROR_NOT_ALL_CALLBACKS_SET : Int := -2001
def HC_ERROR_WRONG_DRIVE_MODE : Int := HC_ERROR_NOT_ALL_CALLBACKS_SET + 1
def HC_ERROR_NULL_DATA_PASSED : Int := HC_ERROR_WRONG_DRIVE_MODE + 1
def HC_ERROR_BAD_RENDERER_VERSION : Int := HC_ERROR_NULL_DATA_PASSED + 1
def HC_ERROR_BAD_CONTENT : Int := HC_ERROR_BAD_RENDERER_VERSION + 1
def HC_ERROR_BAD_INPUT_REQUEST : Int := HC_ERROR_BAD_CONTENT + 1
def HC_ERROR_BAD_ENVIRONMENT_INFO : Int := HC_ERROR_BAD_INPUT_REQUEST + 1
def HC_ERROR_BAD_AUDIO_DATA_WANT : Int := HC_ERROR_BAD_ENVIRONMENT_INFO + 1
def HC_ERROR_BAD_AUDIO_DATA_HAVE : Int := HC_ERROR_BAD_AUDIO_DATA_WANT + 1
def HC_ERROR_AUDIO_OVERRUN : Int := HC_ERROR_BAD_AUDIO_DATA_HAVE + 1
def HC_ERROR_AUDIO_FULLY_SELF_DRIVEN : Int := HC_ERROR_AUDIO_OVERRUN + 1
def HC_ERROR_NOT_SOFTWARE_RENDERED : Int := HC_ERROR_AUDIO_FULLY_SELF_DRIVEN + 1
def HC_ERROR_NOT_OPENGL_RENDERED : Int := HC_ERROR_NOT_SOFTWARE_RENDERED + 1
def HC_ERROR_NOT_VULKAN_RENDERED : Int := HC_ERROR_NOT_OPENGL_RENDERED + 1
def HC_ERROR_NOT_METAL_RENDERED : Int := HC_ERROR_NOT_VULKAN_RENDERED + 1
def HC_ERROR_NOT_DIRECT3D_RENDERED : Int := HC_ERROR_NOT_METAL_RENDERED + 1
def HC_INTERNAL_ERROR_BAD_LOADFUNCTIONPTR : Int := -5001
def HC_INTERNAL_ERROR_MISSING_FUNCTION : Int := -5002
def HC_INTERNAL_ERROR_WRAPPER_NOT_INITIALIZED : Int := -5003

def hcResultFailureValues : List Int :=
  [HC_ERROR_CORE, HC_ERROR_NOT_ALL_CALLBACKS_SET, HC_ERROR_WRONG_DRIVE_MODE,
   HC_ERROR_NULL_DATA_PASSED, HC_ERROR_BAD_RENDERER_VERSION,
   HC_ERROR_BAD_CONTENT, HC_ERROR_BAD_INPUT_REQUEST,
   HC_ERROR_BAD_ENVIRONMENT_INFO, HC_ERROR_BAD_AUDIO_DATA_WANT,
   HC_ERROR_BAD_AUDIO_DATA_HAVE, HC_ERROR_AUDIO_OVERRUN,
   HC_ERROR_AUDIO_FULLY_SELF_DRIVEN, HC_ERROR_NOT_SOFTWARE_RENDERED,
   HC_ERROR_NOT_OPENGL_RENDERED, HC_ERROR_NOT_VULKAN_RENDERED,
   HC_ERROR_NOT_METAL_RENDERED, HC_ERROR_NOT_DIRECT3D_RENDERED,
   HC_INTERNAL_ERROR_BAD_LOADFUNCTIONPTR, HC_INTERNAL_ERROR_MISSING_FUNCTION,
   HC_INTERNAL_ERROR_WRAPPER_NOT_INITIALIZED]

def HC_DRIVE_MODE_NULL : Nat := 0
def HC_DRIVE_MODE_SELF_DRIVEN : Nat := 1
def HC_DRIVE_MODE_SELF_DRIVEN_EXCEPT_AUDIO : Nat := 2
def HC_DRIVE_MODE_FRONTEND_DRIVEN : Nat := 3

def driveModeNonNullValues : List Nat :=
  [HC_DRIVE_MODE_SELF_DRIVEN, HC_DRIVE_MODE_SELF_DRIVEN_EXCEPT_AUDIO,
   HC_DRIVE_MODE_FRONTEND_DRIVEN]

def HC_OPENGL_NOT_SUPPORTED : Nat := 0
def HC_OPENGL_VERSION_1_0 : Nat := (1 <<< 16) ||| 0
def HC_OPENGL_VERSION_1_1 : Nat := (1 <<< 16) ||| 1
def HC_OPENGL_VERSION_1_2 : Nat := (1 <<< 16) ||| 2
def HC_OPENGL_VERSION_1_3 : Nat := (1 <<< 16) ||| 3
def HC_OPENGL_VERSION_1_4 : Nat := (1 <<< 16) ||| 4
def HC_OPENGL_VERSION_1_5 : Nat := (1 <<< 16) ||| 5
def HC_OPENGL_VERSION_2_0 : Nat := (2 <<< 16) ||| 0
def HC_OPENGL_VERSION_2_1 : Nat := (2 <<< 16) ||| 1
def HC_OPENGL_VERSION_3_0 : Nat := (3 <<< 16) ||| 0
def HC_OPENGL_VERSION_3_1 : Nat := (3 <<< 16) ||| 1
def HC_OPENGL_VERSION_3_2 : Nat := (3 <<< 16) ||| 2
def HC_OPENGL_VERSION_3_3 : Nat := (3 <<< 16) ||| 3
def HC_OPENGL_VERSION_4_0 : Nat := (4 <<< 16) ||| 0
def HC_OPENGL_VERSION_4_1 : Nat := (4 <<< 16) ||| 1
def HC_OPENGL_VERSION_4_2 : Nat := (4 <<< 16) ||| 2
def HC_OPENGL_VERSION_4_3 : Nat := (4 <<< 16) ||| 3
def HC_OPENGL_VERSION_4_4 : Nat := (4 <<< 16) ||| 4
def HC_OPENGL_VERSION_4_5 : Nat := (4 <<< 16) ||| 5
def HC_OPENGL_VERSION_4_6 : Nat := (4 <<< 16) ||| 6

def HC_OPENGL_ES_NOT_SUPPORTED : Nat := 0
def HC_OPENGL_ES_VERSION_1_0 : Nat := (1 <<< 16) ||| 0
def HC_OPENGL_ES_VERSION_1_1 : Nat := (1 <<< 16) ||| 1
def HC_OPENGL_ES_VERSION_2_0 : Nat := (2 <<< 16) ||| 0
def HC_OPENGL_ES_VERSION_3_0 : Nat := (3 <<< 16) ||| 0
def HC_OPENGL_ES_VERSION_3_1 : Nat := (3 <<< 16) ||| 1
def HC_OPENGL_ES_VERSION_3_2 : Nat := (3 <<< 16) ||| 2

def HC_WEBGL_NOT_SUPPORTED : Nat := 0
def HC_WEBGL_VERSION_1_0 : Nat := 1
def HC_WEBGL_VERSION_2_0 : Nat := 2

def HC_VULKAN_NOT_SUPPORTED : Nat := 0
def HC_VULKAN_VERSION_1_0 : Nat := (1 <<< 16) ||| 0
def HC_VULKAN_VERSION_1_1 : Nat := (1 <<< 16) ||| 1
def HC_VULKAN_VERSION_1_2 : Nat := (1 <<< 16) ||| 2
def HC_VULKAN_VERSION_1_3 : Nat := (1 <<< 16) ||| 3

def HC_METAL_NOT_SUPPORTED : Nat := 0
def HC_METAL_VERSION_1_0 : Nat := (1 <<< 16) ||| 0
def HC_METAL_VERSION_2_0 : Nat := (2 <<< 16) ||| 0
def HC_METAL_VERSION_3_0 : Nat := (3 <<< 16) ||| 0

def HC_DIRECT3D_NOT_SUPPORTED : Nat := 0
def HC_DIRECT3D_VERSION_7_0 : Nat := HC_DIRECT3D_NOT_SUPPORTED + 1
def HC_DIRECT3D_VERSION_8_0 : Nat := HC_DIRECT3D_VERSION_7_0 + 1
def HC_DIRECT3D_VERSION_9_0 : Nat := HC_DIRECT3D_VERSION_8_0 + 1
def HC_DIRECT3D_VERSION_10_0 : Nat := HC_DIRECT3D_VERSION_9_0 + 1
def HC_DIRECT3D_VERSION_11_0 : Nat := HC_DIRECT3D_VERSION_10_0 + 1
def HC_DIRECT3D_VERSION_12_0 : Nat := HC_DIRECT3D_VERSION_11_0 + 1

def openGlVersions : List (Nat × Nat × Nat) :=
  [(HC_OPENGL_VERSION_1_0, 1, 0), (HC_OPENGL_VERSION_1_1, 1, 1),
   (HC_OPENGL_VERSION_1_2, 1, 2), (HC_OPENGL_VERSION_1_3, 1, 3),
   (HC_OPENGL_VERSION_1_4, 1, 4), (HC_OPENGL_VERSION_1_5, 1, 5),
   (HC_OPENGL_VERSION_2_0, 2, 0), (HC_OPENGL_VERSION_2_1, 2, 1),
   (HC_OPENGL_VERSION_3_0, 3, 0), (HC_OPENGL_VERSION_3_1, 3, 1),
   (HC_OPENGL_VERSION_3_2, 3, 2), (HC_OPENGL_VERSION_3_3, 3, 3),
   (HC_OPENGL_VERSION_4_0, 4, 0), (HC_OPENGL_VERSION_4_1, 4, 1),
   (HC_OPENGL_VERSION_4_2, 4, 2), (HC_OPENGL_VERSION_4_3, 4, 3),
   (HC_OPENGL_VERSION_4_4, 4, 4), (HC_OPENGL_VERSION_4_5, 4, 5),
   (HC_OPENGL_VERSION_4_6, 4, 6)]

def openGlEsVersions : List (Nat × Nat × Nat) :=
  [(HC_OPENGL_ES_VERSION_1_0, 1, 0), (HC_OPENGL_ES_VERSION_1_1, 1, 1),
   (HC_OPENGL_ES_VERSION_2_0, 2, 0), (HC_OPENGL_ES_VERSION_3_0, 3, 0),
   (HC_OPENGL_ES_VERSION_3_1, 3, 1), (HC_OPENGL_ES_VERSION_3_2, 3, 2)]

def webGlVersions : List (Nat × Nat × Nat) :=
  [(HC_WEBGL_VERSION_1_0, 1, 0), (HC_WEBGL_VERSION_2_0, 2, 0)]

def vulkanVersions : List (Nat × Nat × Nat) :=
  [(HC_VULKAN_VERSION_1_0, 1, 0), (HC_VULKAN_VERSION_1_1, 1, 1),
   (HC_VULKAN_VERSION_1_2, 1, 2), (HC_VULKAN_VERSION_1_3, 1, 3)]

def metalVersions : List (Nat × Nat × Nat) :=
  [(HC_METAL_VERSION_1_0, 1, 0), (HC_METAL_VERSION_2_0, 2, 0),
   (HC_METAL_VERSION_3_0, 3, 0)]

def direct3DVersions : List (Nat × Nat × Nat) :=
  [(HC_DIRECT3D_VERSION_7_0, 7, 0), (HC_DIRECT3D_VERSION_8_0, 8, 0),
   (HC_DIRECT3D_VERSION_9_0, 9, 0), (HC_DIRECT3D_VERSION_10_0, 10, 0),
   (HC_DIRECT3D_VERSION_11_0, 11, 0), (HC_DIRECT3D_VERSION_12_0, 12, 0)]

end RevC

/-! ## Version-family ordering predicates (for the §4.2 / §8 contracts) -/

/-- A family of version enumerators (each entry is the enumerator's numeric
value paired with the (major, minor) version it names) is strictly ordered by
major-then-minor precedence: for any two entries, the numeric values compare
with `<` exactly when the (major, minor) pairs compare lexicographically. -/
def majorMinorOrdered (fam : List (Nat × Nat × Nat)) : Prop :=
  ∀ a ∈ fam, ∀ b ∈ fam,
    (a.1 < b.1 ↔ (a.2.1 < b.2.1 ∨ (a.2.1 = b.2.1 ∧ a.2.2 < b.2.2)))

instance (fam : List (Nat × Nat × Nat)) : Decidable (majorMinorOrdered fam) :=
  inferInstanceAs (Decidable (∀ a ∈ fam, ∀ b ∈ fam, _))

/-- All version families of all three header revisions, each paired with its
`NOT_SUPPORTED` enumerator value: (notSupportedValue, supported entries). -/
def allVersionFamilies : List (Nat × List (Nat × Nat × Nat)) :=
  [(RevA.HC_OPENGL_NOT_SUPPORTED, RevA.openGlVersions),
   (RevA.HC_OPENGL_ES_NOT_SUPPORTED, RevA.openGlEsVersions),
   (RevA.HC_WEBGL_NOT_SUPPORTED, RevA.webGlVersions),
   (RevA.HC_VULKAN_NOT_SUPPORTED, RevA.vulkanVersions),
   (RevA.HC_METAL_NOT_SUPPORTED, RevA.metalVersions),
   (RevA.HC_DIRECT3D_NOT_SUPPORTED, RevA.direct3DVersions),
   (RevB.HC_OPENGL_NOT_SUPPORTED, RevB.openGlVersions),
   (RevB.HC_OPENGL_ES_NOT_SUPPORTED, RevB.openGlEsVersions),
   (RevB.HC_WEBGL_NOT_SUPPORTED, RevB.webGlVersions),
   (RevB.HC_VULKAN_NOT_SUPPORTED, RevB.vulkanVersions),
   (RevB.HC_METAL_NOT_SUPPORTED, RevB.metalVersions),
   (RevB.HC_DIRECT3D_NOT_SUPPORTED, RevB.direct3DVersions),
   (RevC.HC_OPENGL_NOT_SUPPORTED, RevC.openGlVersions),
   (RevC.HC_OPENGL_ES_NOT_SUPPORTED, RevC.openGlEsVersions),
   (RevC.HC_WEBGL_NOT_SUPPORTED, RevC.webGlVersions),
   (RevC.HC_VULKAN_NOT_SUPPORTED, RevC.vulkanVersions),
   (RevC.HC_METAL_NOT_SUPPORTED, RevC.metalVersions),
   (RevC.HC_DIRECT3D_NOT_SUPPORTED, RevC.direct3DVersions)]

/-! ## The function-loading translation unit (`src/unnamed/part_002` and
`src/unnamed/part_003`: both define the same nine globals and the same
`hcInternalLoadFunctions` body)

Pointers are modelled as `Nat` with `0` standing for `NULL`; the resolver
argument `loadFunctionPtr` is `Option (String → Nat)` since a null function
pointer cannot be called. The nine mutable globals form the state
`HcFnTable`, threaded explicitly. -/

structure HcFnTable where
  hcGetHostInfo : Nat
  hcGetInputsSync : Nat
  hcReconfigureEnvironment : Nat
  hcPushSamples : Nat
  hcSwPushVideoFrame : Nat
  hcGlMakeCurrent : Nat
  hcGlSwapBuffers : Nat
  hcGlGetProcAddress : Nat
  hcSetCallbacks : Nat
deriving DecidableEq, Repr

/-- The file-scope initializers: every one of the nine globals is defined
with initializer `NULL`. -/
def initialHcFnTable : HcFnTable := ⟨0, 0, 0, 0, 0, 0, 0, 0, 0⟩

/-- The nine host entry-point names, in the order the loader resolves them. -/
def hostFnNames : List String :=
  ["hcGetHostInfo", "hcGetInputsSync", "hcReconfigureEnvironment",
   "hcPushSamples", "hcSwPushVideoFrame", "hcGlMakeCurrent",
   "hcGlSwapBuffers", "hcGlGetProcAddress", "hcSetCallbacks"]

/-- The name resolved at the i-th resolution step of the loader. -/
def nameAt : Fin 9 → String
  | ⟨0, _⟩ => "hcGetHostInfo"
  | ⟨1, _⟩ => "hcGetInputsSync"
  | ⟨2, _⟩ => "hcReconfigureEnvironment"
  | ⟨3, _⟩ => "hcPushSamples"
  | ⟨4, _⟩ => "hcSwPushVideoFrame"
  | ⟨5, _⟩ => "hcGlMakeCurrent"
  | ⟨6, _⟩ => "hcGlSwapBuffers"
  | ⟨7, _⟩ => "hcGlGetProcAddress"
  | ⟨8, _⟩ => "hcSetCallbacks"

/-- The global binding assigned at the i-th resolution step. -/
def getBinding (s : HcFnTable) : Fin 9 → Nat
  | ⟨0, _⟩ => s.hcGetHostInfo
  | ⟨1, _⟩ => s.hcGetInputsSync
  | ⟨2, _⟩ => s.hcReconfigureEnvironment
  | ⟨3, _⟩ => s.hcPushSamples
  | ⟨4, _⟩ => s.hcSwPushVideoFrame
  | ⟨5, _⟩ => s.hcGlMakeCurrent
  | ⟨6, _⟩ => s.hcGlSwapBuffers
  | ⟨7, _⟩ => s.hcGlGetProcAddress
  | ⟨8, _⟩ => s.hcSetCallbacks

/-- `hcInternalLoadFunctions`, transcribed statement by statement: a null
resolver fails with `HC_INTERNAL_ERROR_BAD_LOADFUNCTIONPTR`; otherwise each
of the nine globals in turn is assigned the resolver's result for its name
and checked, a null result failing immediately with
`HC_INTERNAL_ERROR_MISSING_FUNCTION`; if all nine resolve, the call returns
`HC_SUCCESS`. -/
def hcInternalLoadFunctions (loadFunctionPtr : Option (String → Nat))
    (s : HcFnTable) : Int × HcFnTable :=
  match loadFunctionPtr with
  | none => (RevC.HC_INTERNAL_ERROR_BAD_LOADFUNCTIONPTR, s)
  | some load =>
    let p0 := load ("hcGetHostInfo")
    let s0 : HcFnTable := { s with hcGetHostInfo := p0 }
    if p0 = 0 then (RevC.HC_INTERNAL_ERROR_MISSING_FUNCTION, s0) else
    let p1 := load ("hcGetInputsSync")
    let s1 : HcFnTable := { s0 with hcGetInputsSync := p1 }
    if p1 = 0 then (RevC.HC_INTERNAL_ERROR_MISSING_FUNCTION, s1) else
    let p2 := load ("hcReconfigureEnvironment")
    let s2 : HcFnTable := { s1 with hcReconfigureEnvironment := p2 }
    if p2 = 0 then (RevC.HC_INTERNAL_ERROR_MISSING_FUNCTION, s2) else
    let p3 := load ("hcPushSamples")
    let s3 : HcFnTable := { s2 with hcPushSamples := p3 }
    if p3 = 0 then (RevC.HC_INTERNAL_ERROR_MISSING_FUNCTION, s3) else
    let p4 := load ("hcSwPushVideoFrame")
    let s4 : HcFnTable := { s3 with hcSwPushVideoFrame := p4 }
    if p4 = 0 then (RevC.HC_INTERNAL_ERROR_MISSING_FUNCTION, s4) else
    let p5 := load ("hcGlMakeCurrent")
    let s5 : HcFnTable := { s4 with hcGlMakeCurrent := p5 }
    if p5 = 0 then (RevC.HC_INTERNAL_ERROR_MISSING_FUNCTION, s5) else
    let p6 := load ("hcGlSwapBuffers")
    let s6 : HcFnTable := { s5 with hcGlSwapBuffers := p6 }
    if p6 = 0 then (RevC.HC_INTERNAL_ERROR_MISSING_FUNCTION, s6) else
    let p7 := load ("hcGlGetProcAddress")
    let s7 : HcFnTable := { s6 with hcGlGetProcAddress := p7 }
    if p7 = 0 then (RevC.HC_INTERNAL_ERROR_MISSING_FUNCTION, s7) else
    let p8 := load ("hcSetCallbacks")
    let s8 : HcFnTable := { s7 with hcSetCallbacks := p8 }
    if p8 = 0 then (RevC.HC_INTERNAL_ERROR_MISSING_FUNCTION, s8) else
    (RevC.HC_SUCCESS, s8)

/-- The table in which every binding holds the resolver's result for its
name. -/
def tableOf (load : String → Nat) : HcFnTable :=
  ⟨load ("hcGetHostInfo"), load ("hcGetInputsSync"),
   load ("hcReconfigureEnvironment"), load ("hcPushSamples"),
   load ("hcSwPushVideoFrame"), load ("hcGlMakeCurrent"),
   load ("hcGlSwapBuffers"), load ("hcGlGetProcAddress"),
   load ("hcSetCallbacks")⟩

/-- A resolver that resolves only the first name, `hcGetHostInfo`, and fails
on every other name. -/
def c2Resolver : String → Nat :=
  fun n => if n = ("hcGetHostInfo") then 1 else 0

/-- A pre-call binding table in which every global already holds the non-null
pointer 7. -/
def c2StartTable : HcFnTable := ⟨7, 7, 7, 7, 7, 7, 7, 7, 7⟩

/-! ## The C++ interface header `src/include/hydra/core.hxx`

`InterfaceType` is the thirteen-case interface enumeration (plus the
`InterfaceCount` sentinel, value 13). A class defined with the `HYDRA_CLASS`
macro is characterized, for the purposes of the generated code, by the
compile-time facts `is_base_of<hydra::X, Self>` for each interface `X`; the
field `derivesOf` records them. `hasInterface` transcribes the generated
switch (numeric `InterfaceType` argument, default branch returning false) and
each `as` accessor transcribes its generated body: a cast of `this` (modelled
as `some c`) when `hasInterface` holds, `nullptr` (`none`) otherwise. -/

inductive InterfaceType where
  | IBase | IFrontendDriven | ISelfDriven | ISoftwareRendered
  | IOpenGlRendered | IAudio | IInput | ISaveState | IMultiplayer
  | ILog | IReadableMemory | IRewind | ICheat
deriving DecidableEq, Repr

/-- The numeric value of each `InterfaceType` enumerator (C++ `enum class`
defaulting: consecutive from zero in the X-macro order). -/
def interfaceValue : InterfaceType → Nat
  | .IBase => 0
  | .IFrontendDriven => 1
  | .ISelfDriven => 2
  | .ISoftwareRendered => 3
  | .IOpenGlRendered => 4
  | .IAudio => 5
  | .IInput => 6
  | .ISaveState => 7
  | .IMultiplayer => 8
  | .ILog => 9
  | .IReadableMemory => 10
  | .IRewind => 11
  | .ICheat => 12

/-- The `InterfaceCount` sentinel enumerator. -/
def interfaceCountValue : Nat := 13

/-- A class defined with the `HYDRA_CLASS` macro, described by which of the
thirteen interfaces it derives from (the `is_base_of` compile-time facts). -/
structure HydraClass where
  derivesOf : InterfaceType → Bool

/-- The `hasInterface` member generated by `HYDRA_CLASS`: a switch over the
numeric interface value with one case per interface returning the
`is_base_of` fact for that interface, and a default branch returning
false. -/
def hasInterface (c : HydraClass) (v : Nat) : Bool :=
  if v = interfaceValue .IBase then c.derivesOf .IBase
  else if v = interfaceValue .IFrontendDriven then c.derivesOf .IFrontendDriven
  else if v = interfaceValue .ISelfDriven then c.derivesOf .ISelfDriven
  else if v = interfaceValue .ISoftwareRendered then c.derivesOf .ISoftwareRendered
  else if v = interfaceValue .IOpenGlRendered then c.derivesOf .IOpenGlRendered
  else if v = interfaceValue .IAudio then c.derivesOf .IAudio
  else if v = interfaceValue .IInput then c.derivesOf .IInput
  else if v = interfaceValue .ISaveState then c.derivesOf .ISaveState
  else if v = interfaceValue .IMultiplayer then c.derivesOf .IMultiplayer
  else if v = interfaceValue .ILog then c.derivesOf .ILog
  else if v = interfaceValue .IReadableMemory then c.derivesOf .IReadableMemory
  else if v = interfaceValue .IRewind then c.derivesOf .IRewind
  else if v = interfaceValue .ICheat then c.derivesOf .ICheat
  else false

def asIBase (c : HydraClass) : Option HydraClass :=
  if hasInterface c (interfaceValue .IBase) then some c else none

def asIFrontendDriven (c : HydraClass) : Option HydraClass :=
  if hasInterface c (interfaceValue .IFrontendDriven) then some c else none

def asISelfDriven (c : HydraClass) : Option HydraClass :=
  if hasInterface c (interfaceValue .ISelfDriven) then some c else none

def asISoftwareRendered (c : HydraClass) : Option HydraClass :=
  if hasInterface c (interfaceValue .ISoftwareRendered) then some c else none

def asIOpenGlRendered (c : HydraClass) : Option HydraClass :=
  if hasInterface c (interfaceValue .IOpenGlRendered) then some c else none

def asIAudio (c : HydraClass) : Option HydraClass :=
  if hasInterface c (interfaceValue .IAudio) then some c else none

def asIInput (c : HydraClass) : Option HydraClass :=
  if hasInterface c (interfaceValue .IInput) then some c else none

def asISaveState (c : HydraClass) : Option HydraClass :=
  if hasInterface c (interfaceValue .ISaveState) then some c else none

def asIMultiplayer (c : HydraClass) : Option HydraClass :=
  if hasInterface c (interfaceValue .IMultiplayer) then some c else none

def asILog (c : HydraClass) : Option HydraClass :=
  if hasInterface c (interfaceValue .ILog) then some c else none

def asIReadableMemory (c : HydraClass) : Option HydraClass :=
  if hasInterface c (interfaceValue .IReadableMemory) then some c else none

def asIRewind (c : HydraClass) : Option HydraClass :=
  if hasInterface c (interfaceValue .IRewind) then some c else none

def asICheat (c : HydraClass) : Option HydraClass :=
  if hasInterface c (interfaceValue .ICheat) then some c else none

/-- The accessor the macro generates for a given interface. -/
def interfaceAccessor : InterfaceType → HydraClass → Option HydraClass
  | .IBase => asIBase
  | .IFrontendDriven => asIFrontendDriven
  | .ISelfDriven => asISelfDriven
  | .ISoftwareRendered => asISoftwareRendered
  | .IOpenGlRendered => asIOpenGlRendered
  | .IAudio => asIAudio
  | .IInput => asIInput
  | .ISaveState => asISaveState
  | .IMultiplayer => asIMultiplayer
  | .ILog => asILog
  | .IReadableMemory => asIReadableMemory
  | .IRewind => asIRewind
  | .ICheat => asICheat

/-! ## Struct layouts

Each exchanged record struct of each header revision is transcribed as its
ordered list of (member name, member C type) pairs, exactly as declared. -/

/-- A record begins with the two chaining fields: its first member is the
`HcStructureType` discriminator `type` and its second member is the `void*`
extension link `next`. -/
def beginsWithChainFields (fields : List (String × String)) : Prop :=
  fields.take 2 = [("type", "HcStructureType"), ("next", "void*")]

instance (fields : List (String × String)) :
    Decidable (beginsWithChainFields fields) :=
  inferInstanceAs (Decidable (_ = _))

/-- The record structs of revision C (`src/unnamed/part_001`), in
declaration order, each with its ordered member list. -/
def revCStructs : List (String × List (String × String)) :=
  [("HcVideoInfo",
    [("type", "HcStructureType"), ("next", "void*"),
     ("rendererType", "HcRendererType"), ("rendererVersion", "uint32_t"),
     ("width", "uint32_t"), ("height", "uint32_t"),
     ("frameRate", "uint32_t"), ("format", "HcPixelFormat")]),
   ("HcAudioInfo",
    [("type", "HcStructureType"), ("next", "void*"),
     ("format", "HcAudioFormat"), ("channels", "HcAudioChannels"),
     ("sampleRate", "uint32_t")]),
   ("HcImageData",
    [("type", "HcStructureType"), ("next", "void*"), ("data", "uint8_t*"),
     ("width", "uint32_t"), ("height", "uint32_t"),
     ("channels", "uint32_t"), ("stride", "uint32_t"),
     ("format", "HcPixelFormat")]),
   ("HcAudioData",
    [("type", "HcStructureType"), ("next", "void*"), ("data", "uint8_t*"),
     ("sampleCount", "uint32_t"), ("want", "HcAudioInfo"),
     ("have", "HcAudioInfo")]),
   ("HcContentInfo",
    [("type", "HcStructureType"), ("next", "void*"),
     ("name", "const char*"), ("description", "const char*"),
     ("extensions", "const char*")]),
   ("HcCoreInfo",
    [("type", "HcStructureType"), ("next", "void*"),
     ("coreName", "const char*"), ("coreVersion", "const char*"),
     ("systemName", "const char*"), ("author", "const char*"),
     ("description", "const char*"), ("website", "const char*"),
     ("settings", "const char*"), ("license", "const char*"),
     ("loadableContentInfo", "HcContentInfo*"),
     ("loadableContentInfoCount", "int"), ("icon", "HcImageData*")]),
   ("HcEnvironmentInfo",
    [("type", "HcStructureType"), ("next", "void*"),
     ("driveMode", "HcDriveMode"), ("video", "HcVideoInfo*"),
     ("audio", "HcAudioInfo*")]),
   ("HcDestroyInfo",
    [("type", "HcStructureType"), ("next", "void*")]),
   ("HcResetInfo",
    [("type", "HcStructureType"), ("next", "void*"),
     ("resetType", "HcResetType")]),
   ("HcHostInfo",
    [("type", "HcStructureType"), ("next", "void*"),
     ("architecture", "HcArchitecture"),
     ("operatingSystem", "HcOperatingSystem"),
     ("gpuVendor", "const char*"), ("openGlVersion", "HcOpenGlVersion"),
     ("openGlEsVersion", "HcOpenGlEsVersion"),
     ("webGlVersion", "HcWebGlVersion"), ("vulkanVersion", "HcVulkanVersion"),
     ("metalVersion", "HcMetalVersion"),
     ("direct3DVersion", "HcDirect3DVersion")]),
   ("HcInputRequest",
    [("type", "HcStructureType"), ("next", "void*"), ("port", "uint32_t"),
     ("inputType", "HcInputType")]),
   ("HcRunStateInfo",
    [("type", "HcStructureType"), ("next", "void*"),
     ("runState", "HcRunState")]),
   ("HcContentLoadInfo",
    [("type", "HcStructureType"), ("next", "void*"),
     ("name", "const char*"), ("path", "const char*")]),
   ("HcFrontendDrivenCallbacks",
    [("type", "HcStructureType"), ("next", "void*"),
     ("runFrame", "void (*)()")]),
   ("HcSelfDrivenCallbacks",
    [("type", "HcStructureType"), ("next", "void*"),
     ("entryPoint", "void (*)()")]),
   ("HcCallbacks",
    [("type", "HcStructureType"), ("next", "void*"),
     ("frontendDrivenCallbacks", "HcFrontendDrivenCallbacks*"),
     ("selfDrivenCallbacks", "HcSelfDrivenCallbacks*")])]

/-- The record structs of revision B (`src/unnamed/part_000`), in
declaration order. -/
def revBStructs : List (String × List (String × String)) :=
  [("HcVideoInfo",
    [("type", "HcStructureType"), ("next", "void*"),
     ("renderer", "HcRendererType"), ("rendererVersion", "uint32_t"),
     ("width", "uint32_t"), ("height", "uint32_t"),
     ("frameRate", "uint32_t"), ("format", "HcPixelFormat")]),
   ("HcAudioInfo",
    [("type", "HcStructureType"), ("next", "void*"),
     ("format", "HcAudioFormat"), ("channels", "HcAudioChannels"),
     ("sampleRate", "uint32_t")]),
   ("HcImageData",
    [("type", "HcStructureType"), ("next", "void*"), ("data", "uint8_t*"),
     ("width", "uint32_t"), ("height", "uint32_t"),
     ("channels", "uint32_t"), ("stride", "uint32_t"),
     ("format", "HcPixelFormat")]),
   ("HcAudioData",
    [("type", "HcStructureType"), ("next", "void*"), ("data", "uint8_t*"),
     ("info", "HcAudioInfo")]),
   ("HcContentInfo",
    [("type", "HcStructureType"), ("next", "void*"),
     ("name", "const char*"), ("description", "const char*"),
     ("extensions", "const char*")]),
   ("HcCoreInfo",
    [("type", "HcStructureType"), ("next", "void*"),
     ("coreName", "const char*"), ("coreVersion", "const char*"),
     ("systemName", "const char*"), ("author", "const char*"),
     ("description", "const char*"), ("website", "const char*"),
     ("settings", "const char*"), ("license", "const char*"),
     ("loadableContentInfo", "HcContentInfo*"),
     ("loadableContentInfoCount", "int"), ("icon", "HcImageData")]),
   ("HcEnvironmentInfo",
    [("type", "HcStructureType"), ("next", "void*"),
     ("driveMode", "HcDriveMode"), ("video", "HcVideoInfo"),
     ("audio", "HcAudioInfo")]),
   ("HcDestroyInfo",
    [("type", "HcStructureType"), ("next", "void*")]),
   ("HcResetInfo",
    [("type", "HcStructureType"), ("next", "void*"),
     ("resetType", "HcResetType")]),
   ("HcHostInfo",
    [("type", "HcStructureType"), ("next", "void*"),
     ("architecture", "HcArchitecture"),
     ("operatingSystem", "HcOperatingSystem"),
     ("gpuVendor", "const char*"), ("openGlVersion", "HcOpenGlVersion"),
     ("openGlEsVersion", "HcOpenGlEsVersion"),
     ("webGlVersion", "HcWebGlVersion"), ("vulkanVersion", "HcVulkanVersion"),
     ("metalVersion", "HcMetalVersion"),
     ("direct3DVersion", "HcDirect3DVersion")]),
   ("HcInputRequest",
    [("type", "HcStructureType"), ("next", "void*"), ("port", "uint32_t"),
     ("inputType", "HcInputType")]),
   ("HcRunStateInfo",
    [("type", "HcStructureType"), ("next", "void*"),
     ("runState", "HcRunState")]),
   ("HcContentLoadInfo",
    [("type", "HcStructureType"), ("next", "void*"),
     ("name", "const char*"), ("path", "const char*")]),
   ("HcCallbacks",
    [("type", "HcStructureType"), ("next", "void*"), ("userdata", "void*"),
     ("runFrame", "void (*)(void*)")])]

/-- The record structs of revision A (`src/include/hydra/core.h`), in
declaration order (the struct tagged `HcImageData` is typedef-named
`HcIconInfo` in this revision). -/
def revAStructs : List (String × List (String × String)) :=
  [("HcVideoInfo",
    [("type", "HcStructureType"), ("next", "void*"),
     ("renderer", "HcRendererType"), ("rendererVersion", "uint32_t"),
     ("width", "uint32_t"), ("height", "uint32_t"),
     ("frameRate", "uint32_t"), ("format", "HcPixelFormat")]),
   ("HcAudioInfo",
    [("type", "HcStructureType"), ("next", "void*"),
     ("format", "HcAudioFormat"), ("channels", "HcAudioChannels"),
     ("sampleRate", "uint32_t")]),
   ("HcImageData",
    [("type", "HcStructureType"), ("next", "void*"), ("data", "uint8_t*"),
     ("width", "uint32_t"), ("height", "uint32_t"),
     ("channels", "uint32_t"), ("stride", "uint32_t"),
     ("format", "HcPixelFormat")]),
   ("HcAudioData",
    [("type", "HcStructureType"), ("next", "void*"), ("data", "uint8_t*"),
     ("info", "HcAudioInfo")]),
   ("HcEmulatorInfo",
    [("type", "HcStructureType"), ("next", "void*"),
     ("driveMode", "HcDriveMode"), ("coreName", "const char*"),
     ("coreVersion", "const char*"), ("systemName", "const char*"),
     ("author", "const char*"), ("description", "const char*"),
     ("website", "const char*"), ("settings", "const char*"),
     ("license", "const char*"),
     ("loadableContentTypes", "const char**"), ("icon", "HcIconInfo")]),
   ("HcEmulatorCreateInfo",
    [("type", "HcStructureType"), ("next", "void*"),
     ("video", "HcVideoInfo"), ("audio", "HcAudioInfo")]),
   ("HcEmulatorDestroyInfo",
    [("type", "HcStructureType"), ("next", "void*")]),
   ("HcEmulatorResetInfo",
    [("type", "HcStructureType"), ("next", "void*"),
     ("resetType", "HcResetType")]),
   ("HcHostInfo",
    [("type", "HcStructureType"), ("next", "void*"),
     ("architecture", "HcArchitecture"),
     ("operatingSystem", "HcOperatingSystem"),
     ("gpuVendor", "const char*"), ("openGlVersion", "HcOpenGlVersion"),
     ("openGlEsVersion", "HcOpenGlEsVersion"),
     ("webGlVersion", "HcWebGlVersion"), ("vulkanVersion", "HcVulkanVersion"),
     ("metalVersion", "HcMetalVersion"),
     ("direct3DVersion", "HcDirect3DVersion")]),
   ("HcInputRequest",
    [("type", "HcStructureType"), ("next", "void*"), ("port", "uint32_t"),
     ("inputType", "HcInputType")]),
   ("HcLockRequest",
    [("type", "HcStructureType"), ("next", "void*"),
     ("lockName", "HcLockName"), ("lock", "bool")]),
   ("HcEmulatorRunStateInfo",
    [("type", "HcStructureType"), ("next", "void*"),
     ("runState", "HcEmulatorRunState")]),
   ("HcContentInfo",
    [("type", "HcStructureType"), ("next", "void*"),
     ("name", "const char*"), ("path", "const char*")]),
   ("HcCallbacks",
    [("type", "HcStructureType"), ("next", "void*"),
     ("runFrame", "void (*)(void*)")])]

/-- All record structs of all three header revisions. -/
def allRecordStructs : List (String × List (String × String)) :=
  revAStructs ++ revBStructs ++ revCStructs

lemma forall_names_iff (f : String → Nat) :
    (∀ n ∈ hostFnNames, f n ≠ 0) ↔ (∀ i : Fin 9, f (nameAt i) ≠ 0) := by
  constructor
  · intro h i
    fin_cases i <;> exact h _ (by simp [hostFnNames, nameAt])
  · intro h n hn
    simp only [hostFnNames, List.mem_cons, List.not_mem_nil, or_false] at hn
    rcases hn with rfl|rfl|rfl|rfl|rfl|rfl|rfl|rfl|rfl
    exacts [h 0, h 1, h 2, h 3, h 4, h 5, h 6, h 7, h 8]

lemma load_success (load : String → Nat) (s : HcFnTable)
    (h : ∀ i : Fin 9, load (nameAt i) ≠ 0) :
    hcInternalLoadFunctions (some load) s = (RevC.HC_SUCCESS, tableOf load) := by
  have h0 := h 0; have h1 := h 1; have h2 := h 2; have h3 := h 3
  have h4 := h 4; have h5 := h 5; have h6 := h 6; have h7 := h 7
  have h8 := h 8
  simp only [nameAt] at h0 h1 h2 h3 h4 h5 h6 h7 h8
  simp [hcInternalLoadFunctions, tableOf, h0, h1, h2, h3, h4, h5, h6, h7, h8]

lemma getBinding_tableOf (load : String → Nat) (i : Fin 9) :
    getBinding (tableOf load) i = load (nameAt i) := by
  fin_cases i <;> rfl

lemma load_fail (load : String → Nat) (s : HcFnTable) (k : Fin 9)
    (hk : load (nameAt k) = 0)
    (hlt : ∀ i : Fin 9, i < k → load (nameAt i) ≠ 0) :
    (hcInternalLoadFunctions (some load) s).1 =
      RevC.HC_INTERNAL_ERROR_MISSING_FUNCTION ∧
    ∀ i : Fin 9, getBinding (hcInternalLoadFunctions (some load) s).2 i =
      if i < k then load (nameAt i) else if i = k then 0 else getBinding s i := by
  fin_cases k
  · simp only [nameAt] at hk
    refine ⟨by simp [hcInternalLoadFunctions, hk], ?_⟩
    intro i
    fin_cases i <;> simp [hcInternalLoadFunctions, getBinding, hk, nameAt]
  · have h0 := hlt 0 (by decide)
    simp only [nameAt] at h0 hk
    refine ⟨by simp [hcInternalLoadFunctions, hk, h0], ?_⟩
    intro i
    fin_cases i <;> simp [hcInternalLoadFunctions, getBinding, hk, h0, nameAt]
  · have h0 := hlt 0 (by decide)
    have h1 := hlt 1 (by decide)
    simp only [nameAt] at h0 h1 hk
    refine ⟨by simp [hcInternalLoadFunctions, hk, h0, h1], ?_⟩
    intro i
    fin_cases i <;> simp [hcInternalLoadFunctions, getBinding, hk, h0, h1, nameAt]
  · have h0 := hlt 0 (by decide)
    have h1 := hlt 1 (by decide)
    have h2 := hlt 2 (by decide)
    simp only [nameAt] at h0 h1 h2 hk
    refine ⟨by simp [hcInternalLoadFunctions, hk, h0, h1, h2], ?_⟩
    intro i
    fin_cases i <;>
      simp [hcInternalLoadFunctions, getBinding, hk, h0, h1, h2, nameAt]
  · have h0 := hlt 0 (by decide)
    have h1 := hlt 1 (by decide)
    have h2 := hlt 2 (by decide)
    have h3 := hlt 3 (by decide)
    simp only [nameAt] at h0 h1 h2 h3 hk
    refine ⟨by simp [hcInternalLoadFunctions, hk, h0, h1, h2, h3], ?_⟩
    intro i
    fin_cases i <;>
      simp [hcInternalLoadFunctions, getBinding, hk, h0, h1, h2, h3, nameAt]
  · have h0 := hlt 0 (by decide)
    have h1 := hlt 1 (by decide)
    have h2 := hlt 2 (by decide)
    have h3 := hlt 3 (by decide)
    have h4 := hlt 4 (by decide)
    simp only [nameAt] at h0 h1 h2 h3 h4 hk
    refine ⟨by simp [hcInternalLoadFunctions, hk, h0, h1, h2, h3, h4], ?_⟩
    intro i
    fin_cases i <;>
      simp [hcInternalLoadFunctions, getBinding, hk, h0, h1, h2, h3, h4, nameAt]
  · have h0 := hlt 0 (by decide)
    have h1 := hlt 1 (by decide)
    have h2 := hlt 2 (by decide)
    have h3 := hlt 3 (by decide)
    have h4 := hlt 4 (by decide)
    have h5 := hlt 5 (by decide)
    simp only [nameAt] at h0 h1 h2 h3 h4 h5 hk
    refine ⟨by simp [hcInternalLoadFunctions, hk, h0, h1, h2, h3, h4, h5], ?_⟩
    intro i
    fin_cases i <;>
      simp [hcInternalLoadFunctions, getBinding, hk, h0, h1, h2, h3, h4, h5,
        nameAt]
  · have h0 := hlt 0 (by decide)
    have h1 := hlt 1 (by decide)
    have h2 := hlt 2 (by decide)
    have h3 := hlt 3 (by decide)
    have h4 := hlt 4 (by decide)
    have h5 := hlt 5 (by decide)
    have h6 := hlt 6 (by decide)
    simp only [nameAt] at h0 h1 h2 h3 h4 h5 h6 hk
    refine ⟨by simp [hcInternalLoadFunctions, hk, h0, h1, h2, h3, h4, h5, h6], ?_⟩
    intro i
    fin_cases i <;>
      simp [hcInternalLoadFunctions, getBinding, hk, h0, h1, h2, h3, h4, h5,
        h6, nameAt]
  · have h0 := hlt 0 (by decide)
    have h1 := hlt 1 (by decide)
    have h2 := hlt 2 (by decide)
    have h3 := hlt 3 (by decide)
    have h4 := hlt 4 (by decide)
    have h5 := hlt 5 (by decide)
    have h6 := hlt 6 (by decide)
    have h7 := hlt 7 (by decide)
    simp only [nameAt] at h0 h1 h2 h3 h4 h5 h6 h7 hk
    refine
      ⟨by simp [hcInternalLoadFunctions, hk, h0, h1, h2, h3, h4, h5, h6, h7], ?_⟩
    intro i
    fin_cases i <;>
      simp [hcInternalLoadFunctions, getBinding, hk, h0, h1, h2, h3, h4, h5,
        h6, h7, nameAt]

lemma exists_first_fail (load : String → Nat)
    (h : ∃ i : Fin 9, load (nameAt i) = 0) :
    ∃ k : Fin 9, load (nameAt k) = 0 ∧
      ∀ i : Fin 9, i < k → load (nameAt i) ≠ 0 := by
  by_cases h0 : load (nameAt 0) = 0
  · exact ⟨0, h0, fun i hi => absurd hi (by simp [Fin.lt_def])⟩
  by_cases h1 : load (nameAt 1) = 0
  · refine ⟨1, h1, fun i hi => ?_⟩
    fin_cases i <;> first | assumption | exact absurd hi (by decide)
  by_cases h2 : load (nameAt 2) = 0
  · refine ⟨2, h2, fun i hi => ?_⟩
    fin_cases i <;> first | assumption | exact absurd hi (by decide)
  by_cases h3 : load (nameAt 3) = 0
  · refine ⟨3, h3, fun i hi => ?_⟩
    fin_cases i <;> first | assumption | exact absurd hi (by decide)
  by_cases h4 : load (nameAt 4) = 0
  · refine ⟨4, h4, fun i hi => ?_⟩
    fin_cases i <;> first | assumption | exact absurd hi (by decide)
  by_cases h5 : load (nameAt 5) = 0
  · refine ⟨5, h5, fun i hi => ?_⟩
    fin_cases i <;> first | assumption | exact absurd hi (by decide)
  by_cases h6 : load (nameAt 6) = 0
  · refine ⟨6, h6, fun i hi => ?_⟩
    fin_cases i <;> first | assumption | exact absurd hi (by decide)
  by_cases h7 : load (nameAt 7) = 0
  · refine ⟨7, h7, fun i hi => ?_⟩
    fin_cases i <;> first | assumption | exact absurd hi (by decide)
  by_cases h8 : load (nameAt 8) = 0
  · refine ⟨8, h8, fun i hi => ?_⟩
    fin_cases i <;> first | assumption | exact absurd hi (by decide)
  · obtain ⟨i, hi⟩ := h
    fin_cases i <;> contradiction

lemma interfaceAccessor_eq (c : HydraClass) (X : InterfaceType) :
    interfaceAccessor X c = if c.derivesOf X = true then some c else none := by
  cases X <;>
    simp [interfaceAccessor, asIBase, asIFrontendDriven, asISelfDriven,
      asISoftwareRendered, asIOpenGlRendered, asIAudio, asIInput, asISaveState,
      asIMultiplayer, asILog, asIReadableMemory, asIRewind, asICheat,
      hasInterface, interfaceValue]

lemma hasInterface_value (c : HydraClass) (X : InterfaceType) :
    hasInterface c (interfaceValue X) = c.derivesOf X := by
  cases X <;> simp [hasInterface, interfaceValue]

/-- C3: the claim fails on the code. Revision B's `HcMetalVersion` assigns
the numeric value 1 to all three of its supported version enumerators
(`HC_METAL_VERSION_1_0`, `HC_METAL_VERSION_2_0`, `HC_METAL_VERSION_3_0`), so
version 1.0 and version 2.0 of the Metal family compare equal numerically even
though (1, 0) is lexicographically smaller than (2, 0): the family is not
strictly ordered by major-then-minor precedence, contradicting the spec's
version-encoding contract (which the sibling families of the same revision and
the successor revision's Metal family do satisfy — a copy-paste slip in the
code). -/
theorem c3_metal_versions_unordered :
    RevB.HC_METAL_VERSION_1_0 = RevB.HC_METAL_VERSION_2_0 ∧
    RevB.HC_METAL_VERSION_2_0 = RevB.HC_METAL_VERSION_3_0 ∧
    ¬ majorMinorOrdered RevB.metalVersions ∧
    majorMinorOrdered RevC.metalVersions ∧
    majorMinorOrdered RevC.openGlVersions := by
  refine ⟨rfl, rfl, ?_, by decide, by decide⟩
  intro h
  have := (h (RevB.HC_METAL_VERSION_1_0, 1, 0) (by decide)
             (RevB.HC_METAL_VERSION_2_0, 2, 0) (by decide)).mpr
  simp [RevB.HC_METAL_VERSION_1_0, RevB.HC_METAL_VERSION_2_0] at this

/-- C5: in every revision of the headers and for every renderer version
family (OpenGL, OpenGL ES, WebGL, Vulkan, Metal, Direct3D), the family's
`NOT_SUPPORTED` enumerator equals zero and is strictly smaller than the
numeric value of every supported version enumerator of that family. -/
theorem c5_not_supported_zero_least :
    ∀ fam ∈ allVersionFamilies,
      fam.1 = 0 ∧ ∀ v ∈ fam.2, fam.1 < v.1 := by decide

/-- Witness for `c5_not_supported_zero_least` at a concrete family: revision
C's OpenGL family is in the list, its `NOT_SUPPORTED` value is zero, and zero
is smaller than the value of `HC_OPENGL_VERSION_4_6`. -/
theorem c5_witness :
    RevC.HC_OPENGL_NOT_SUPPORTED = 0 ∧
    RevC.HC_OPENGL_NOT_SUPPORTED < RevC.HC_OPENGL_VERSION_4_6 := by
  have h := c5_not_supported_zero_least
    (RevC.HC_OPENGL_NOT_SUPPORTED, RevC.openGlVersions) (by decide)
  exact ⟨h.1, h.2 (RevC.HC_OPENGL_VERSION_4_6, 4, 6) (by decide)⟩

/-- C7: in every revision of the `HcResult` enumeration, `HC_SUCCESS` equals
zero, every failure enumerator (including the implicitly incremented ones and
the internal resolution errors of the latest revision) is strictly negative,
and the failure enumerators of each revision are pairwise distinct. -/
theorem c7_result_codes_negative_distinct :
    (RevA.HC_SUCCESS = 0 ∧ (∀ v ∈ RevA.hcResultFailureValues, v < 0) ∧
      RevA.hcResultFailureValues.Nodup) ∧
    (RevB.HC_SUCCESS = 0 ∧ (∀ v ∈ RevB.hcResultFailureValues, v < 0) ∧
      RevB.hcResultFailureValues.Nodup) ∧
    (RevC.HC_SUCCESS = 0 ∧ (∀ v ∈ RevC.hcResultFailureValues, v < 0) ∧
      RevC.hcResultFailureValues.Nodup) := by decide

/-- Witness for `c7_result_codes_negative_distinct` at a concrete enumerator:
the latest revision's `HC_ERROR_NOT_DIRECT3D_RENDERED` (an implicitly
incremented enumerator) is negative. -/
theorem c7_witness : RevC.HC_ERROR_NOT_DIRECT3D_RENDERED < 0 :=
  c7_result_codes_negative_distinct.2.2.2.1
    RevC.HC_ERROR_NOT_DIRECT3D_RENDERED (by decide)

/-- C8 counterexample: the claim that the drive-mode enumeration defines no
non-null drive mode besides a self-driven and a frontend-driven one is false
on the code: the latest revision's `HcDriveMode` defines
`HC_DRIVE_MODE_SELF_DRIVEN_EXCEPT_AUDIO`, a third non-null mode distinct from
`HC_DRIVE_MODE_NULL`, `HC_DRIVE_MODE_SELF_DRIVEN` and
`HC_DRIVE_MODE_FRONTEND_DRIVEN`, so the enumeration offers three non-null
modes, not two. -/
theorem c8_third_drive_mode_counterexample :
    RevC.HC_DRIVE_MODE_SELF_DRIVEN_EXCEPT_AUDIO ∈ RevC.driveModeNonNullValues ∧
    RevC.HC_DRIVE_MODE_SELF_DRIVEN_EXCEPT_AUDIO ≠ RevC.HC_DRIVE_MODE_NULL ∧
    RevC.HC_DRIVE_MODE_SELF_DRIVEN_EXCEPT_AUDIO ≠ RevC.HC_DRIVE_MODE_SELF_DRIVEN ∧
    RevC.HC_DRIVE_MODE_SELF_DRIVEN_EXCEPT_AUDIO ≠ RevC.HC_DRIVE_MODE_FRONTEND_DRIVEN ∧
    RevC.driveModeNonNullValues.length ≠ 2 := by decide

/-- C8 (amended): the two latest header revisions' `HcDriveMode` enumerations
define exactly three pairwise-distinct non-null drive modes — self-driven,
self-driven-except-audio (a self-driven variant whose audio is pushed to and
played by the frontend), and frontend-driven — while the oldest revision
(`core.h`) defines exactly the two modes the claim describes: self-driven and
frontend-driven. -/
theorem c8_drive_modes_amended :
    (RevC.driveModeNonNullValues =
      [RevC.HC_DRIVE_MODE_SELF_DRIVEN,
       RevC.HC_DRIVE_MODE_SELF_DRIVEN_EXCEPT_AUDIO,
       RevC.HC_DRIVE_MODE_FRONTEND_DRIVEN] ∧
      RevC.driveModeNonNullValues.Nodup ∧
      (∀ v ∈ RevC.driveModeNonNullValues, v ≠ RevC.HC_DRIVE_MODE_NULL)) ∧
    (RevB.driveModeNonNullValues =
      [RevB.HC_DRIVE_MODE_SELF_DRIVEN,
       RevB.HC_DRIVE_MODE_SELF_DRIVEN_EXCEPT_AUDIO,
       RevB.HC_DRIVE_MODE_FRONTEND_DRIVEN] ∧
      RevB.driveModeNonNullValues.Nodup ∧
      (∀ v ∈ RevB.driveModeNonNullValues, v ≠ 0)) ∧
    (RevA.driveModeNonNullValues =
      [RevA.HC_DRIVE_MODE_SELF_DRIVEN, RevA.HC_DRIVE_MODE_FRONTEND_DRIVEN] ∧
      RevA.driveModeNonNullValues.Nodup ∧
      (∀ v ∈ RevA.driveModeNonNullValues, v ≠ RevA.HC_DRIVE_MODE_NULL)) := by
  decide

/-- Witness for `c8_drive_modes_amended` at a concrete mode: the latest
revision's self-driven-except-audio mode is distinct from the null mode. -/
theorem c8_witness :
    RevC.HC_DRIVE_MODE_SELF_DRIVEN_EXCEPT_AUDIO ≠ RevC.HC_DRIVE_MODE_NULL :=
  c8_drive_modes_amended.1.2.2
    RevC.HC_DRIVE_MODE_SELF_DRIVEN_EXCEPT_AUDIO (by decide)

/-- C1: `hcInternalLoadFunctions` returns `HC_SUCCESS` if and only if its
resolver argument is non-null and the resolver returns a non-null pointer for
every one of the nine host entry-point names in `hostFnNames`; and on
`HC_SUCCESS` the resulting table of the nine global bindings is exactly
`tableOf load`, i.e. every binding equals the resolver's result for its
name. -/
theorem c1_load_success_iff (r : Option (String → Nat)) (s : HcFnTable) :
    ((hcInternalLoadFunctions r s).1 = RevC.HC_SUCCESS ↔
      ∃ load, r = some load ∧ ∀ n ∈ hostFnNames, load n ≠ 0) ∧
    ∀ load, r = some load →
      (hcInternalLoadFunctions r s).1 = RevC.HC_SUCCESS →
      (hcInternalLoadFunctions r s).2 = tableOf load := by
  cases r with
  | none =>
    refine ⟨⟨fun h => ?_, ?_⟩, ?_⟩
    · simp [hcInternalLoadFunctions, RevC.HC_SUCCESS,
        RevC.HC_INTERNAL_ERROR_BAD_LOADFUNCTIONPTR] at h
    · rintro ⟨load, hl, -⟩
      exact Option.noConfusion hl
    · intro load hl
      exact Option.noConfusion hl
  | some f =>
    by_cases hall : ∀ i : Fin 9, f (nameAt i) ≠ 0
    · have hs := load_success f s hall
      refine ⟨⟨fun _ => ⟨f, rfl, (forall_names_iff f).mpr hall⟩, fun _ => ?_⟩, ?_⟩
      · rw [hs]
      · intro load hl _
        injection hl with hl
        subst hl
        rw [hs]
    · have hex : ∃ i : Fin 9, f (nameAt i) = 0 := by
        push_neg at hall
        exact hall
      obtain ⟨k, hk, hlt⟩ := exists_first_fail f hex
      have hf := load_fail f s k hk hlt
      refine ⟨⟨fun h => ?_, ?_⟩, ?_⟩
      · rw [hf.1] at h
        exact absurd h (by decide)
      · rintro ⟨load, hl, hln⟩
        injection hl with hl
        subst hl
        exact absurd ((forall_names_iff f).mp hln k) (by simp [hk])
      · intro load hl hsc
        rw [hf.1] at hsc
        exact absurd hsc (by decide)

/-- Witness for `c1_load_success_iff` at a concrete resolver that resolves
every name to the non-null pointer 1: the load succeeds and every binding
holds that resolver's result. -/
theorem c1_witness :
    (hcInternalLoadFunctions (some fun _ => 1) initialHcFnTable).1 =
      RevC.HC_SUCCESS ∧
    (hcInternalLoadFunctions (some fun _ => 1) initialHcFnTable).2 =
      tableOf (fun _ => 1) := by
  have h := c1_load_success_iff (some fun _ => 1) initialHcFnTable
  have hs : (hcInternalLoadFunctions (some fun _ => 1) initialHcFnTable).1 =
      RevC.HC_SUCCESS :=
    h.1.mpr ⟨_, rfl, by decide⟩
  exact ⟨hs, h.2 _ rfl hs⟩

/-- C2 counterexample: the claim that a failing `hcInternalLoadFunctions`
leaves the nine global bindings exactly as they were is false on the code. A
resolver that resolves `hcGetHostInfo` but fails on `hcGetInputsSync` makes
the call return an error (not `HC_SUCCESS`), yet the `hcGetHostInfo` binding
has been overwritten with the resolver's result 1 (it was 7 before the call)
and the `hcGetInputsSync` binding has been overwritten with null. -/
theorem c2_partial_mutation_counterexample :
    (hcInternalLoadFunctions (some c2Resolver) c2StartTable).1 ≠
      RevC.HC_SUCCESS ∧
    (hcInternalLoadFunctions (some c2Resolver) c2StartTable).1 =
      RevC.HC_INTERNAL_ERROR_MISSING_FUNCTION ∧
    (hcInternalLoadFunctions (some c2Resolver) c2StartTable).2 ≠
      c2StartTable ∧
    (hcInternalLoadFunctions (some c2Resolver) c2StartTable).2.hcGetHostInfo = 1 ∧
    c2StartTable.hcGetHostInfo = 7 ∧
    (hcInternalLoadFunctions (some c2Resolver) c2StartTable).2.hcGetInputsSync = 0 ∧
    c2StartTable.hcGetInputsSync = 7 := by decide

/-- C2 (amended): when `hcInternalLoadFunctions` fails with
`HC_INTERNAL_ERROR_BAD_LOADFUNCTIONPTR` (null resolver) the nine global
bindings are left exactly as they were; when it fails with
`HC_INTERNAL_ERROR_MISSING_FUNCTION` there is a failing position `k` such
that the bindings for names resolved before `k` hold the resolver's (non-null)
results, the binding at `k` holds null, and the bindings after `k` are left
as they were — so entry points resolved before the failure do remain bound
from the failed load attempt. -/
theorem c2_error_state_characterization (r : Option (String → Nat))
    (s : HcFnTable) :
    ((hcInternalLoadFunctions r s).1 =
        RevC.HC_INTERNAL_ERROR_BAD_LOADFUNCTIONPTR →
      (hcInternalLoadFunctions r s).2 = s) ∧
    ∀ load, r = some load →
      (hcInternalLoadFunctions r s).1 =
        RevC.HC_INTERNAL_ERROR_MISSING_FUNCTION →
      ∃ k : Fin 9, load (nameAt k) = 0 ∧
        (∀ i : Fin 9, i < k → load (nameAt i) ≠ 0) ∧
        ∀ i : Fin 9, getBinding (hcInternalLoadFunctions r s).2 i =
          if i < k then load (nameAt i)
          else if i = k then 0
          else getBinding s i := by
  cases r with
  | none =>
    exact ⟨fun _ => rfl, fun load hl => Option.noConfusion hl⟩
  | some f =>
    by_cases hall : ∀ i : Fin 9, f (nameAt i) ≠ 0
    · have hs := load_success f s hall
      refine ⟨fun h => ?_, fun load hl h => ?_⟩
      · rw [hs] at h
        simp [RevC.HC_SUCCESS,
          RevC.HC_INTERNAL_ERROR_BAD_LOADFUNCTIONPTR] at h
      · rw [hs] at h
        simp [RevC.HC_SUCCESS,
          RevC.HC_INTERNAL_ERROR_MISSING_FUNCTION] at h
    · have hex : ∃ i : Fin 9, f (nameAt i) = 0 := by
        push_neg at hall
        exact hall
      obtain ⟨k, hk, hlt⟩ := exists_first_fail f hex
      have hf := load_fail f s k hk hlt
      refine ⟨fun h => ?_, fun load hl _ => ?_⟩
      · rw [hf.1] at h
        exact absurd h (by decide)
      · injection hl with hl
        subst hl
        exact ⟨k, hk, hlt, hf.2⟩

/-- Witness for `c2_error_state_characterization` at the null resolver and
the all-null initial table: the failed call leaves the table unchanged. -/
theorem c2_witness :
    (hcInternalLoadFunctions none initialHcFnTable).2 = initialHcFnTable :=
  (c2_error_state_characterization none initialHcFnTable).1 (by decide)

/-- C4: calling `hcInternalLoadFunctions` with a null resolver returns
`HC_INTERNAL_ERROR_BAD_LOADFUNCTIONPTR` and leaves the nine bindings exactly
as they were; that code is distinct from `HC_INTERNAL_ERROR_MISSING_FUNCTION`,
the code returned whenever the (non-null) resolver fails on some named entry
point. -/
theorem c4_null_resolver_error (s : HcFnTable) :
    hcInternalLoadFunctions none s =
      (RevC.HC_INTERNAL_ERROR_BAD_LOADFUNCTIONPTR, s) ∧
    RevC.HC_INTERNAL_ERROR_BAD_LOADFUNCTIONPTR ≠
      RevC.HC_INTERNAL_ERROR_MISSING_FUNCTION ∧
    ∀ load : String → Nat, (∃ n ∈ hostFnNames, load n = 0) →
      (hcInternalLoadFunctions (some load) s).1 =
        RevC.HC_INTERNAL_ERROR_MISSING_FUNCTION := by
  refine ⟨rfl, by decide, fun load hex => ?_⟩
  have hex' : ∃ i : Fin 9, load (nameAt i) = 0 := by
    obtain ⟨n, hn, h0⟩ := hex
    simp only [hostFnNames, List.mem_cons, List.not_mem_nil, or_false] at hn
    rcases hn with rfl|rfl|rfl|rfl|rfl|rfl|rfl|rfl|rfl
    exacts [⟨0, h0⟩, ⟨1, h0⟩, ⟨2, h0⟩, ⟨3, h0⟩, ⟨4, h0⟩, ⟨5, h0⟩, ⟨6, h0⟩,
      ⟨7, h0⟩, ⟨8, h0⟩]
  obtain ⟨k, hk, hlt⟩ := exists_first_fail load hex'
  exact (load_fail load s k hk hlt).1

/-- Witness for `c4_null_resolver_error` at the all-null initial table, with
the everywhere-failing resolver for the third conjunct. -/
theorem c4_witness :
    hcInternalLoadFunctions none initialHcFnTable =
      (RevC.HC_INTERNAL_ERROR_BAD_LOADFUNCTIONPTR, initialHcFnTable) ∧
    (hcInternalLoadFunctions (some fun _ => 0) initialHcFnTable).1 =
      RevC.HC_INTERNAL_ERROR_MISSING_FUNCTION := by
  have h := c4_null_resolver_error initialHcFnTable
  exact ⟨h.1, h.2.2 (fun _ => 0) ⟨"hcGetHostInfo", by decide, rfl⟩⟩

/-- C10: every one of the nine global host-function bindings is initialized
to null at module load (`initialHcFnTable` transcribes the file-scope `NULL`
initializers), and a binding's value changes across a call to
`hcInternalLoadFunctions` only when the resolver is non-null and the new
value is the resolver's result for that binding's name. -/
theorem c10_bindings_null_until_loaded :
    (∀ i : Fin 9, getBinding initialHcFnTable i = 0) ∧
    ∀ (r : Option (String → Nat)) (s : HcFnTable) (i : Fin 9),
      getBinding (hcInternalLoadFunctions r s).2 i ≠ getBinding s i →
      ∃ load, r = some load ∧
        getBinding (hcInternalLoadFunctions r s).2 i = load (nameAt i) := by
  refine ⟨by decide, fun r s i hne => ?_⟩
  cases r with
  | none => exact absurd rfl hne
  | some f =>
    by_cases hall : ∀ j : Fin 9, f (nameAt j) ≠ 0
    · have hs := load_success f s hall
      refine ⟨f, rfl, ?_⟩
      rw [hs]
      exact getBinding_tableOf f i
    · have hex : ∃ j : Fin 9, f (nameAt j) = 0 := by
        push_neg at hall
        exact hall
      obtain ⟨k, hk, hlt⟩ := exists_first_fail f hex
      have hf := load_fail f s k hk hlt
      by_cases hik : i < k
      · exact ⟨f, rfl, by rw [hf.2 i, if_pos hik]⟩
      · by_cases hieq : i = k
        · subst hieq
          refine ⟨f, rfl, ?_⟩
          rw [hf.2 i, if_neg hik, if_pos rfl, hk]
        · exact absurd (by rw [hf.2 i, if_neg hik, if_neg hieq]) hne

/-- Witness for `c10_bindings_null_until_loaded`: with the all-ones resolver
on the initial table, the first binding changes, and the theorem yields that
its new value is the resolver's result for `hcGetHostInfo`. -/
theorem c10_witness :
    ∃ load, (some fun _ => (1 : Nat)) = some load ∧
      getBinding
        (hcInternalLoadFunctions (some fun _ => (1 : Nat)) initialHcFnTable).2
        0 = load (nameAt 0) :=
  c10_bindings_null_until_loaded.2 (some fun _ => 1) initialHcFnTable 0
    (by decide)

/-- C9: for every class defined with `HYDRA_CLASS` (any assignment of the
thirteen `is_base_of` facts) and every interface `X`, the generated accessor
returns the object cast to `X` (a non-null pointer, `some c`) exactly when
the class derives from `hydra::X`, equivalently exactly when
`hasInterface` holds at `X`'s numeric value, and returns `nullptr` (`none`)
otherwise; and `hasInterface` returns false at every numeric value that is
not one of the thirteen interface enumerators. -/
theorem c9_hydra_class_accessors (c : HydraClass) (X : InterfaceType) :
    (interfaceAccessor X c = some c ↔ c.derivesOf X = true) ∧
    (interfaceAccessor X c = some c ↔
      hasInterface c (interfaceValue X) = true) ∧
    (interfaceAccessor X c = none ↔ c.derivesOf X = false) ∧
    ∀ v : Nat, (∀ Y : InterfaceType, interfaceValue Y ≠ v) →
      hasInterface c v = false := by
  refine ⟨?_, ?_, ?_, ?_⟩
  · rw [interfaceAccessor_eq]
    cases hb : c.derivesOf X <;> simp [hb]
  · rw [interfaceAccessor_eq, hasInterface_value]
    cases hb : c.derivesOf X <;> simp [hb]
  · rw [interfaceAccessor_eq]
    cases hb : c.derivesOf X <;> simp [hb]
  · intro v hv
    have n0 := Ne.symm (hv .IBase)
    have n1 := Ne.symm (hv .IFrontendDriven)
    have n2 := Ne.symm (hv .ISelfDriven)
    have n3 := Ne.symm (hv .ISoftwareRendered)
    have n4 := Ne.symm (hv .IOpenGlRendered)
    have n5 := Ne.symm (hv .IAudio)
    have n6 := Ne.symm (hv .IInput)
    have n7 := Ne.symm (hv .ISaveState)
    have n8 := Ne.symm (hv .IMultiplayer)
    have n9 := Ne.symm (hv .ILog)
    have n10 := Ne.symm (hv .IReadableMemory)
    have n11 := Ne.symm (hv .IRewind)
    have n12 := Ne.symm (hv .ICheat)
    simp [hasInterface, n0, n1, n2, n3, n4, n5, n6, n7, n8, n9, n10, n11, n12]

/-- Witness for `c9_hydra_class_accessors` at a concrete class deriving from
every interface: the `ICheat` accessor returns the cast object, and
`hasInterface` is false at the `InterfaceCount` sentinel value 13. -/
theorem c9_witness :
    interfaceAccessor .ICheat ⟨fun _ => true⟩ = some ⟨fun _ => true⟩ ∧
    hasInterface ⟨fun _ => true⟩ interfaceCountValue = false := by
  have h := c9_hydra_class_accessors ⟨fun _ => true⟩ .ICheat
  exact ⟨h.1.mpr rfl, h.2.2.2 interfaceCountValue (by intro Y; cases Y <;> decide)⟩

/-- C6: every exchanged record struct declared by the API, in every header
revision, begins with the two chaining fields in fixed position: its first
member is the `HcStructureType` discriminator `type` and its second member is
the `void*` extension link `next`. -/
theorem c6_records_begin_with_chain_fields :
    ∀ s ∈ allRecordStructs, beginsWithChainFields s.2 := by decide

/-- Witness for `c6_records_begin_with_chain_fields` at a concrete record:
revision C's `HcVideoInfo` begins with the chaining fields. -/
theorem c6_witness :
    beginsWithChainFields
      [("type", "HcStructureType"), ("next", "void*"),
       ("rendererType", "HcRendererType"), ("rendererVersion", "uint32_t"),
       ("width", "uint32_t"), ("height", "uint32_t"),
       ("frameRate", "uint32_t"), ("format", "HcPixelFormat")] :=
  c6_records_begin_with_chain_fields
    ("HcVideoInfo",
     [("type", "HcStructureType"), ("next", "void*"),
      ("rendererType", "HcRendererType"), ("rendererVersion", "uint32_t"),
      ("width", "uint32_t"), ("height", "uint32_t"),
      ("frameRate", "uint32_t"), ("format", "HcPixelFormat")])
    (by decide)
